import Mathlib

/-!
Verification of the FAC data-integration pipeline (`run_pipeline.py`).

The development is a shallow embedding of the pipeline's data model and
operations:

* records returned by the paginated API are association lists of field
  names to values (`Record`);
* `pandas.DataFrame(results)` is modelled columnar, as pandas stores it
  (`DataFrame`), with the column set being the union of the records' keys in
  first-appearance order and missing cells becoming nulls;
* the DuckDB staging store is an association list from relation names to
  tables (`Store`); `CREATE TABLE ... AS` and positional
  `INSERT INTO ... SELECT * FROM chunk` are modelled by `setTable` and
  `insertInto`;
* the paginated reader `fetch_data_stream` is `fetchRun` (fuel-indexed to
  keep it structurally recursive; the fuel is always sufficient, see
  `fetchRunAux`);
* `process_source`, `merge_data`, cleanup in its `finally` block, and the
  driver are `loadSource`, `mergeBody`/`mergeData`, `cleanupFS` and
  `runPipeline`.

Machine-external behaviour (HTTP, the filesystem, DuckDB's SQL frontend) is
modelled only as far as the statements the pipeline actually issues require;
each such model notes its scope in its doc comment.
-/

namespace FacPipeline

/-- Field values occurring in API records: JSON strings, integers, and the
null/NaN cell that pandas inserts for a missing key. -/
inductive Value where
  | vStr : String → Value
  | vInt : Int → Value
  | vNull : Value
deriving DecidableEq, Repr

/-- Python `str()` as applied by `astype(str)`: strings render as themselves,
numbers by their decimal representation, and a missing (NaN) cell as "nan". -/
def Value.toText : Value → String
  | .vStr s => s
  | .vInt n => toString n
  | .vNull => "nan"

/-- The textual coercion `astype(str)` applies to each cell of the join-key
column (run_pipeline.py line 106). -/
def normalizeValue (v : Value) : Value := .vStr v.toText

/-- Whether a cell holds a textual value. -/
def isTextual : Value → Bool
  | .vStr _ => true
  | _ => false

/-- One record of an API response page: field name to value, as decoded from
the JSON object. -/
abbrev Record := List (String × Value)

/-- A pandas DataFrame, stored columnar as pandas does: each column is a name
paired with its cell values, one per row. -/
structure DataFrame where
  cols : List (String × List Value)
deriving DecidableEq, Repr

/-- Row count of a DataFrame: the length of its first column (0 for a
column-less frame). -/
def rowCount (df : DataFrame) : Nat :=
  match df.cols with
  | [] => 0
  | c :: _ => c.2.length

/-- Column names of `pd.DataFrame(results)`: the union of the records' keys in
order of first appearance. -/
def unionCols (rs : List Record) : List String :=
  rs.foldl (fun acc r => r.foldl (fun a p => if a.contains p.1 then a else a ++ [p.1]) acc) []

/-- `pd.DataFrame(results)` (run_pipeline.py line 101): columns are the union
of the records' keys; a record missing a key contributes a null (NaN) cell. -/
def toDataFrame (rs : List Record) : DataFrame :=
  ⟨(unionCols rs).map (fun c => (c, rs.map (fun r => (r.lookup c).getD Value.vNull)))⟩

/-- Lines 104-106 of run_pipeline.py:
`if 'report_id' in df.columns: df['report_id'] = df['report_id'].astype(str)`.
Note the column name is the literal "report_id", not the configured join
key. -/
def normalizeDF (df : DataFrame) : DataFrame :=
  if df.cols.any (fun c => c.1 = "report_id") then
    ⟨df.cols.map (fun c => if c.1 = "report_id" then (c.1, c.2.map normalizeValue) else c)⟩
  else df

/-- Result of running the paginated reader `fetch_data_stream` on one source:
the yielded batches, the final value of the `from` pagination parameter, and
the number of HTTP GET requests issued. -/
structure FetchOut where
  batches : List DataFrame
  finalFrom : Nat
  fetches : Nat
deriving DecidableEq, Repr

/-- The loop body of `fetch_data_stream` (run_pipeline.py lines 85-121).
The remote source is modelled by the dataset it serves: a request with
pagination parameters `from = start`, `size = sz` answers with the records
`(dataset.drop start).take sz`.  The loop yields the normalized DataFrame of
each non-empty page, advances `from` by `size` after each yielded page, and
stops on an empty page or a short page.  The `fuel` argument only makes the
recursion structural; `fetchRun` passes fuel that is never exhausted. -/
def fetchRunAux (dataset : List Record) (sz : Nat) : Nat → Nat → FetchOut
  | start, 0 => ⟨[], start, 0⟩
  | start, fuel + 1 =>
    let results := (dataset.drop start).take sz
    if results.isEmpty then ⟨[], start, 1⟩
    else
      let batch := normalizeDF (toDataFrame results)
      if results.length < sz then ⟨[batch], start + sz, 1⟩
      else
        let rest := fetchRunAux dataset sz (start + sz) fuel
        ⟨batch :: rest.batches, rest.finalFrom, rest.fetches + 1⟩

/-- `fetch_data_stream` for one source: run the pagination loop from the
configured starting offset.  `dataset.length + 1` units of fuel always
suffice, because the loop only continues past a page when that page was full
and non-empty, which consumes at least one record of the dataset. -/
def fetchRun (dataset : List Record) (sz start : Nat) : FetchOut :=
  fetchRunAux dataset sz start (dataset.length + 1)

/-- The DuckDB staging store: relation name to table, in creation order. -/
abbrev Store := List (String × DataFrame)

/-- `DROP TABLE IF EXISTS name` (run_pipeline.py lines 136, 165). -/
def dropTable (st : Store) (name : String) : Store :=
  st.filter (fun p => p.1 ≠ name)

/-- `DROP TABLE IF EXISTS name` followed by `CREATE TABLE name AS SELECT *
FROM chunk` (lines 136-140): any existing relation is replaced by the chunk. -/
def setTable (st : Store) (name : String) (t : DataFrame) : Store :=
  dropTable st name ++ [(name, t)]

/-- `INSERT INTO name SELECT * FROM chunk` (lines 144-147).  DuckDB matches an
insert without a column list positionally: if the chunk's column count differs
from the table's, it refuses with a binder error that names the table and the
two counts; otherwise the chunk's i-th column is appended to the table's i-th
column regardless of the column names.  The model is untyped (cell casts that
DuckDB would attempt are not modelled). -/
def insertInto (name : String) (t chunk : DataFrame) : Except String DataFrame :=
  if t.cols.length = chunk.cols.length then
    .ok ⟨(t.cols.zip chunk.cols).map (fun p => (p.1.1, p.1.2 ++ p.2.2))⟩
  else
    .error ("Binder Error: table " ++ name ++ " has " ++ toString t.cols.length
      ++ " columns but " ++ toString chunk.cols.length ++ " values were supplied")

/-- The append phase of `process_source`: insert every chunk after the first
into the relation, stopping at the first failing insert and reporting the
partially appended table together with the error. -/
def appendAll (name : String) (t : DataFrame) : List DataFrame → DataFrame × Except String Unit
  | [] => (t, .ok ())
  | c :: cs =>
    match insertInto name t c with
    | .ok t' => appendAll name t' cs
    | .error e => (t, .error e)

/-- `process_source` (lines 123-150) applied to the batches its reader
yielded: the loop body never runs for an empty batch sequence (no relation is
created); otherwise the first batch (re)creates the relation and each later
batch is appended to it. -/
def loadSource (st : Store) (name : String) : List DataFrame → Store × Except String Unit
  | [] => (st, .ok ())
  | first :: rest =>
    let r := appendAll name first rest
    (setTable st name r.1, r.2)

/-- One configured source: its relation name and its pagination parameters,
together with the dataset the remote endpoint serves (the endpoint itself is
an external collaborator; it is modelled by its content). -/
structure SourceCfg where
  name : String
  dataset : List Record
  sz : Nat
  start : Nat
deriving DecidableEq, Repr

/-- The configuration fields `merge_data` and its callees read.  A raw
key-presence view of the settings section is used separately for validation
(`validateConfig`), since validation only tests key presence. -/
structure Config where
  outputFilename : String
  downloadDir : String
  primaryJoinKey : String
  cleanupTempFiles : Bool
  sources : List SourceCfg
deriving DecidableEq, Repr

/-- The DuckDB database file `temp_dir / "temp.duckdb"` (line 54). -/
def dbPath (cfg : Config) : String := cfg.downloadDir ++ "/temp.duckdb"

/-- The settings keys `_validate_config` requires (line 70). -/
def requiredSettings : List String :=
  ["output_filename", "download_directory", "primary_join_key"]

/-- The ValueError `_validate_config` raises (line 72); the message names the
whole required list, not the specific missing keys. -/
def configErrorMsg : String :=
  "ValueError: Missing required settings: ['output_filename', 'download_directory', 'primary_join_key']"

/-- `_validate_config` (lines 68-72), applied to the set of keys present in the
settings section: it raises ValueError unless all three required keys are
present. -/
def validateConfig (settingKeys : List String) : Except String Unit :=
  if requiredSettings.all (fun k => settingKeys.contains k) then .ok ()
  else .error configErrorMsg

/-- Process-state of one run: the staging store, the files that exist (as path
strings), whether the temporary working directory exists, and how many HTTP
requests have been issued. -/
structure RunState where
  store : Store
  files : List String
  tempDirExists : Bool
  http : Nat
deriving DecidableEq, Repr

/-- Process every configured source in order (lines 156-157), stopping at the
first failure.  The reader is a generator consumed by the loader, so when a
load succeeds the HTTP count is exactly the reader's fetch count for that
source (an append failure in the code would stop the generator early; only
the successful-load count is relied on below). -/
def processAll : List SourceCfg → RunState → RunState × Except String Unit
  | [], s => (s, .ok ())
  | src :: rest, s =>
    let f := fetchRun src.dataset src.sz src.start
    let s1 : RunState := { s with http := s.http + f.fetches }
    match loadSource s1.store src.name f.batches with
    | (st', .ok ()) => processAll rest { s1 with store := st' }
    | (st', .error e) => ({ s1 with store := st' }, .error e)

/-- The merge query built by lines 167-179, whitespace normalized: the text of
the Python f-strings with each fragment's indentation collapsed.  Note the
statement ends at the closing parenthesis of the `incremental_join` CTE; no
main SELECT follows it. -/
def buildMergeQuery (t0 : String) (rest : List String) (pk : String) : String :=
  let base := "CREATE TABLE merged_data AS\nWITH incremental_join AS (\n    SELECT * FROM " ++ t0 ++ "\n"
  (rest.foldl (fun q t => q ++ "LEFT JOIN " ++ t ++ " \nUSING (" ++ pk ++ ")\n") base) ++ ")"

/-- The main statement that follows the last closing parenthesis of a query
text (the empty string when the query ends at that parenthesis). -/
def mainStatementAfter (q : String) : String :=
  ((q.data.reverse.takeWhile (fun c => c ≠ ')')).reverse).asString

/-- The error DuckDB reports for the queries `merge_data` builds. -/
def parserErrorMsg : String := "Parser Error: syntax error at end of input"

/-- Model of DuckDB executing the `CREATE TABLE ... AS WITH cte AS ( ... )`
statement shape that `merge_data` builds (executed at line 182).  SQL requires
a main SELECT after the CTE list; a statement with nothing after the CTE's
closing parenthesis is rejected by the parser ("syntax error at end of
input") and no table is created.  Statements that do carry a main SELECT are
outside what this development models, so they also report an error rather
than a fabricated result. -/
def execMergeStatement (st : Store) (q : String) : Store × Except String Unit :=
  if mainStatementAfter q = "" then
    (st, .error parserErrorMsg)
  else
    (st, .error ("model limit: execution of a statement with a main SELECT is not modelled: " ++ q))

/-- The body of `merge_data`'s try block (lines 154-193): process every
source, drop any previous `merged_data`, execute the built merge statement,
and (were that to succeed) export the merged relation to the configured
output path. -/
def mergeBody (cfg : Config) (s0 : RunState) : RunState × Except String Unit :=
  match processAll cfg.sources s0 with
  | (s1, .error e) => (s1, .error e)
  | (s1, .ok ()) =>
    match cfg.sources.map (fun s => s.name) with
    | [] => (s1, .error "IndexError: list index out of range")
    | t0 :: rest =>
      let s2 : RunState := { s1 with store := dropTable s1.store "merged_data" }
      let r := execMergeStatement s2.store (buildMergeQuery t0 rest cfg.primaryJoinKey)
      match r.2 with
      | .error e => ({ s2 with store := r.1 }, .error e)
      | .ok () => ({ s2 with store := r.1, files := s2.files ++ [cfg.outputFilename] }, .ok ())

/-- Whether path `p` is directly inside directory `dir`, and if so its
basename: `p = dir ++ "/" ++ base` with a nonempty base containing no further
separator (`Path.glob('*.csv')` is non-recursive). -/
def pathInDir (dir p : String) : Option (List Char) :=
  let d := dir.data ++ ['/']
  if p.data.take d.length = d then
    let b := p.data.drop d.length
    if b ≠ [] ∧ ¬ b.contains '/' then some b else none
  else none

/-- Whether a basename ends in ".csv". -/
def endsWithCsv (b : List Char) : Bool :=
  b.reverse.take 4 == ['v', 's', 'c', '.']

/-- Whether a path is a `*.csv` file directly inside the working directory. -/
def isTempCsv (cfg : Config) (p : String) : Bool :=
  match pathInDir cfg.downloadDir p with
  | some b => endsWithCsv b
  | none => false

/-- Whether a path lies directly inside the working directory. -/
def inTemp (cfg : Config) (p : String) : Bool :=
  (pathInDir cfg.downloadDir p).isSome

/-- The cleanup block (lines 201-209), run when `cleanup_temp_files` is
enabled: close the connection, unlink the DuckDB file, unlink every `*.csv`
directly inside the working directory, then `rmdir` the working directory.
`Path.rmdir` raises OSError when the directory is not empty; the raised
message is returned as `some error`. -/
def cleanupFS (cfg : Config) (s : RunState) : RunState × Option String :=
  let files1 := s.files.filter (fun p => p ≠ dbPath cfg)
  let files2 := files1.filter (fun p => ¬ isTempCsv cfg p)
  let s' : RunState := { s with files := files2 }
  if s.tempDirExists then
    if files2.any (fun p => inTemp cfg p) then
      (s', some "OSError: [Errno 39] Directory not empty")
    else ({ s' with tempDirExists := false }, none)
  else (s', none)

/-- `merge_data` (lines 152-209): the try-block body followed by the
`finally` cleanup.  Python's exception semantics for `finally`: an exception
raised inside the `finally` block replaces whatever the body was about to
return or raise; otherwise the body's outcome stands. -/
def mergeData (cfg : Config) (s0 : RunState) : RunState × Except String Unit :=
  let b := mergeBody cfg s0
  if cfg.cleanupTempFiles then
    match cleanupFS cfg b.1 with
    | (s2, some ce) => (s2, .error ce)
    | (s2, none) => (s2, b.2)
  else b

/-- The driver (`main` plus `FACDataPipeline.__init__`): load and validate the
configuration — a validation failure aborts before the working directory or
the database file is created and before any HTTP request — then create the
working directory and the DuckDB file and run `merge_data`.  `settingKeys` is
the set of keys present in the configuration's settings section, and `files0`
the files that exist before the run. -/
def runPipeline (settingKeys : List String) (cfg : Config) (files0 : List String) :
    RunState × Except String Unit :=
  match validateConfig settingKeys with
  | .error e => (⟨[], files0, false, 0⟩, .error e)
  | .ok () =>
    let s0 : RunState := ⟨[], files0 ++ [dbPath cfg], true, 0⟩
    mergeData cfg s0

/-! ### Lemmas about the paginated reader -/

/-- Length of the page served for offset `start` and page size `sz`. -/
theorem page_length (dataset : List Record) (sz start : Nat) :
    ((dataset.drop start).take sz).length = min sz (dataset.length - start) := by
  simp [List.length_take, List.length_drop]

/-- Unfolding of the reader loop at an empty page. -/
theorem fetchRunAux_empty (dataset : List Record) (sz start fuel : Nat)
    (h1 : ((dataset.drop start).take sz).isEmpty = true) :
    fetchRunAux dataset sz start (fuel + 1) = ⟨[], start, 1⟩ := by
  simp only [fetchRunAux]
  rw [if_pos h1]

/-- Unfolding of the reader loop at a non-empty short page. -/
theorem fetchRunAux_short (dataset : List Record) (sz start fuel : Nat)
    (h1 : ¬((dataset.drop start).take sz).isEmpty = true)
    (h2 : ((dataset.drop start).take sz).length < sz) :
    fetchRunAux dataset sz start (fuel + 1)
      = ⟨[normalizeDF (toDataFrame ((dataset.drop start).take sz))], start + sz, 1⟩ := by
  simp only [fetchRunAux]
  rw [if_neg h1, if_pos h2]

/-- Unfolding of the reader loop at a full page. -/
theorem fetchRunAux_cons (dataset : List Record) (sz start fuel : Nat)
    (h1 : ¬((dataset.drop start).take sz).isEmpty = true)
    (h2 : ¬((dataset.drop start).take sz).length < sz) :
    fetchRunAux dataset sz start (fuel + 1)
      = ⟨normalizeDF (toDataFrame ((dataset.drop start).take sz))
            :: (fetchRunAux dataset sz (start + sz) fuel).batches,
          (fetchRunAux dataset sz (start + sz) fuel).finalFrom,
          (fetchRunAux dataset sz (start + sz) fuel).fetches + 1⟩ := by
  simp only [fetchRunAux]
  rw [if_neg h1, if_neg h2]

/-- A non-empty page has records. -/
theorem page_pos (dataset : List Record) (sz start : Nat)
    (h1 : ¬((dataset.drop start).take sz).isEmpty = true) :
    0 < ((dataset.drop start).take sz).length := by
  have hne : ((dataset.drop start).take sz) ≠ [] := by
    intro h0; exact h1 (List.isEmpty_iff.mpr h0)
  have := List.length_eq_zero.not.mpr hne
  omega

/-- The fuel `fetchRun` passes is never exhausted: under the standing
hypothesis `dataset.length - start < fuel`, the fuel-zero branch is
unreachable, and the recursive call preserves the hypothesis. -/
theorem fetchRunAux_fuel_step (dataset : List Record) (sz start fuel : Nat)
    (h : dataset.length - start < fuel + 1)
    (h1 : ¬((dataset.drop start).take sz).isEmpty = true)
    (h2 : ¬((dataset.drop start).take sz).length < sz) :
    dataset.length - (start + sz) < fuel := by
  have hp := page_length dataset sz start
  have hne := page_pos dataset sz start h1
  omega

/-- The reader issues at least one request. -/
theorem fetchRunAux_fetches_pos (dataset : List Record) (sz start fuel : Nat)
    (h : dataset.length - start < fuel) :
    0 < (fetchRunAux dataset sz start fuel).fetches := by
  match fuel with
  | 0 => omega
  | fuel + 1 =>
    by_cases h1 : ((dataset.drop start).take sz).isEmpty
    · rw [fetchRunAux_empty dataset sz start fuel h1]
      exact Nat.one_pos
    · by_cases h2 : ((dataset.drop start).take sz).length < sz
      · rw [fetchRunAux_short dataset sz start fuel h1 h2]
        exact Nat.one_pos
      · rw [fetchRunAux_cons dataset sz start fuel h1 h2]
        exact Nat.succ_pos _

/-- The final pagination offset equals the starting offset plus one page size
per yielded batch: the offset advances by the page size after each fetch that
yielded a batch. -/
theorem fetchRunAux_finalFrom (dataset : List Record) (sz : Nat) :
    ∀ fuel start, dataset.length - start < fuel →
      (fetchRunAux dataset sz start fuel).finalFrom
        = start + (fetchRunAux dataset sz start fuel).batches.length * sz := by
  intro fuel
  induction fuel with
  | zero => intro start h; omega
  | succ fuel ih =>
    intro start h
    by_cases h1 : ((dataset.drop start).take sz).isEmpty
    · rw [fetchRunAux_empty dataset sz start fuel h1]
      show start = start + 0 * sz
      ring
    · by_cases h2 : ((dataset.drop start).take sz).length < sz
      · rw [fetchRunAux_short dataset sz start fuel h1 h2]
        show start + sz = start + 1 * sz
        ring
      · have hrec := fetchRunAux_fuel_step dataset sz start fuel h h1 h2
        have hih := ih (start + sz) hrec
        rw [fetchRunAux_cons dataset sz start fuel h1 h2]
        show (fetchRunAux dataset sz (start + sz) fuel).finalFrom
          = start + ((fetchRunAux dataset sz (start + sz) fuel).batches.length + 1) * sz
        rw [hih]
        ring

/-- Every page the reader requested before its last request was a full page:
the reader keeps fetching exactly as long as pages are full. -/
theorem fetchRunAux_full_pages (dataset : List Record) (sz : Nat) :
    ∀ fuel start i, dataset.length - start < fuel →
      i + 1 < (fetchRunAux dataset sz start fuel).fetches →
      ((dataset.drop (start + i * sz)).take sz).length = sz := by
  intro fuel
  induction fuel with
  | zero => intro start i h; omega
  | succ fuel ih =>
    intro start i h hi
    by_cases h1 : ((dataset.drop start).take sz).isEmpty
    · rw [fetchRunAux_empty dataset sz start fuel h1] at hi
      have hi1 : i + 1 < 1 := hi
      omega
    · by_cases h2 : ((dataset.drop start).take sz).length < sz
      · rw [fetchRunAux_short dataset sz start fuel h1 h2] at hi
        have hi1 : i + 1 < 1 := hi
        omega
      · rw [fetchRunAux_cons dataset sz start fuel h1 h2] at hi
        have hrec := fetchRunAux_fuel_step dataset sz start fuel h h1 h2
        have hi' : i + 1 < (fetchRunAux dataset sz (start + sz) fuel).fetches + 1 := hi
        match i with
        | 0 =>
          have hp := page_length dataset sz start
          have hz : start + 0 * sz = start := by ring
          rw [hz, page_length]
          omega
        | i + 1 =>
          have hidx : start + (i + 1) * sz = (start + sz) + i * sz := by ring
          rw [hidx]
          exact ih (start + sz) i hrec (by omega)

/-- The page answering the reader's last request was empty or short: the
reader stops exactly at the first page with fewer records than the page
size. -/
theorem fetchRunAux_last_short (dataset : List Record) (sz : Nat) (hsz : 0 < sz) :
    ∀ fuel start, dataset.length - start < fuel →
      ((dataset.drop (start + ((fetchRunAux dataset sz start fuel).fetches - 1) * sz)).take sz).length < sz := by
  intro fuel
  induction fuel with
  | zero => intro start h; omega
  | succ fuel ih =>
    intro start h
    by_cases h1 : ((dataset.drop start).take sz).isEmpty
    · rw [fetchRunAux_empty dataset sz start fuel h1]
      have hlen : ((dataset.drop start).take sz).length = 0 :=
        List.length_eq_zero.mpr (List.isEmpty_iff.mp h1)
      have hz : start + (1 - 1) * sz = start := by ring
      show ((dataset.drop (start + (1 - 1) * sz)).take sz).length < sz
      rw [hz]
      omega
    · by_cases h2 : ((dataset.drop start).take sz).length < sz
      · rw [fetchRunAux_short dataset sz start fuel h1 h2]
        have hz : start + (1 - 1) * sz = start := by ring
        show ((dataset.drop (start + (1 - 1) * sz)).take sz).length < sz
        rw [hz]
        exact h2
      · rw [fetchRunAux_cons dataset sz start fuel h1 h2]
        have hrec := fetchRunAux_fuel_step dataset sz start fuel h h1 h2
        have hpos := fetchRunAux_fetches_pos dataset sz (start + sz) fuel hrec
        have hih := ih (start + sz) hrec
        show ((dataset.drop (start + ((fetchRunAux dataset sz (start + sz) fuel).fetches + 1 - 1) * sz)).take sz).length < sz
        obtain ⟨k, hk⟩ : ∃ k, (fetchRunAux dataset sz (start + sz) fuel).fetches = k + 1 :=
          ⟨(fetchRunAux dataset sz (start + sz) fuel).fetches - 1, by omega⟩
        rw [hk] at hih ⊢
        have hidx : start + (k + 1 + 1 - 1) * sz = (start + sz) + (k + 1 - 1) * sz := by
          simp only [Nat.add_sub_cancel]
          ring
        rw [hidx]
        exact hih

/-- Fuel sufficiency at `fetchRun`'s call site. -/
theorem fetchRun_fuel (dataset : List Record) (start : Nat) :
    dataset.length - start < dataset.length + 1 := by omega

/-- When the page at the starting offset is already empty, the reader yields
no batch at all, after exactly one request. -/
theorem fetchRun_of_drop_nil (dataset : List Record) (sz start : Nat)
    (h : dataset.drop start = []) :
    fetchRun dataset sz start = ⟨[], start, 1⟩ := by
  unfold fetchRun
  exact fetchRunAux_empty dataset sz start dataset.length (by rw [h]; simp)

/-! ### Lemmas about the loader and the staging store -/

/-- A successful positional insert appends exactly the chunk's rows: the
relation's row count grows by the chunk's row count (in particular it grows
monotonically). -/
theorem insertInto_rowCount (name : String) (t c t' : DataFrame)
    (h : insertInto name t c = .ok t') :
    rowCount t' = rowCount t + rowCount c := by
  unfold insertInto at h
  by_cases hl : t.cols.length = c.cols.length
  · rw [if_pos hl] at h
    cases h' : t.cols with
    | nil =>
      have hc : c.cols = [] := by
        rw [h'] at hl
        exact List.length_eq_zero.mp hl.symm
      cases h
      simp [rowCount, h', hc]
    | cons p ps =>
      cases hcc : c.cols with
      | nil => rw [h', hcc] at hl; simp at hl
      | cons q qs =>
        cases h
        simp [rowCount, h', hcc]
  · rw [if_neg hl] at h
    cases h

/-- A successful insert preserves the relation's schema: the column names are
unchanged (the loader never widens the schema). -/
theorem insertInto_schema (name : String) (t c t' : DataFrame)
    (h : insertInto name t c = .ok t') :
    t'.cols.map Prod.fst = t.cols.map Prod.fst ∧ t.cols.length = c.cols.length := by
  unfold insertInto at h
  by_cases hl : t.cols.length = c.cols.length
  · rw [if_pos hl] at h
    cases h
    refine ⟨?_, hl⟩
    show ((t.cols.zip c.cols).map (fun p => (p.1.1, p.1.2 ++ p.2.2))).map Prod.fst
      = t.cols.map Prod.fst
    rw [List.map_map]
    have : (Prod.fst ∘ fun p : (String × List Value) × (String × List Value) =>
        (p.1.1, p.1.2 ++ p.2.2)) = (Prod.fst ∘ Prod.fst) := rfl
    rw [this, ← List.map_map, List.map_fst_zip t.cols c.cols (le_of_eq hl)]
  · rw [if_neg hl] at h
    cases h

/-- A chunk whose column count differs from the frozen schema's makes the
insert fail, with the DuckDB binder message naming the table and the two
counts (not the drifted field names). -/
theorem insertInto_count_mismatch (name : String) (t c : DataFrame)
    (h : t.cols.length ≠ c.cols.length) :
    insertInto name t c = .error ("Binder Error: table " ++ name ++ " has "
      ++ toString t.cols.length ++ " columns but " ++ toString c.cols.length
      ++ " values were supplied") := by
  unfold insertInto
  rw [if_neg h]

/-- After a fully successful append phase, the relation's row count is the
first batch's plus the sum of the row counts of the appended chunks. -/
theorem appendAll_rowCount (name : String) :
    ∀ (cs : List DataFrame) (t t' : DataFrame), appendAll name t cs = (t', .ok ()) →
      rowCount t' = rowCount t + (cs.map rowCount).sum := by
  intro cs
  induction cs with
  | nil =>
    intro t t' h
    cases h
    simp
  | cons c cs ih =>
    intro t t' h
    unfold appendAll at h
    cases hi : insertInto name t c with
    | ok t1 =>
      rw [hi] at h
      have := ih t1 t' h
      rw [this, insertInto_rowCount name t c t1 hi]
      simp [Nat.add_assoc]
    | error e =>
      rw [hi] at h
      cases h

/-- Looking up a relation right after `setTable` finds exactly the table that
was stored, whatever the store previously held under that name. -/
theorem lookup_setTable (st : Store) (name : String) (t : DataFrame) :
    (setTable st name t).lookup name = some t := by
  induction st with
  | nil => simp [setTable, dropTable, List.lookup]
  | cons p ps ih =>
    by_cases hp : p.1 = name
    · simpa [setTable, dropTable, hp] using ih
    · have hb : (name == p.1) = false := beq_eq_false_iff_ne.mpr (Ne.symm hp)
      simp only [setTable, dropTable] at ih ⊢
      rw [List.filter_cons_of_pos (by simpa using hp)]
      simpa [List.lookup, hb] using ih

/-- Loading a non-empty batch sequence stores under the source's name exactly
the result of the append phase. -/
theorem loadSource_lookup (st : Store) (name : String) (first : DataFrame)
    (rest : List DataFrame) :
    (loadSource st name (first :: rest)).1.lookup name
      = some (appendAll name first rest).1 := by
  unfold loadSource
  exact lookup_setTable st name (appendAll name first rest).1

/-! ### Lemmas about join-key normalization -/

/-- Normalization is idempotent, which is the round-trip property
`normalize(x) == normalize(str(x))`: coercing an already-coerced value changes
nothing. -/
theorem normalizeValue_roundTrip (v : Value) :
    normalizeValue (Value.vStr v.toText) = normalizeValue v := rfl

/-- Every cell of a column named "report_id" is textual after the reader's
normalization step. -/
theorem normalizeDF_textual (df : DataFrame) :
    ∀ col ∈ (normalizeDF df).cols, col.1 = "report_id" →
      ∀ v ∈ col.2, isTextual v = true := by
  intro col hcol hname v hv
  unfold normalizeDF at hcol
  by_cases hany : df.cols.any (fun c => c.1 = "report_id")
  · rw [if_pos hany] at hcol
    obtain ⟨c, hc, hfc⟩ := List.mem_map.mp hcol
    by_cases hcn : c.1 = "report_id"
    · rw [if_pos hcn] at hfc
      rw [← hfc] at hv
      obtain ⟨u, _, hu⟩ := List.mem_map.mp hv
      rw [← hu]
      rfl
    · rw [if_neg hcn] at hfc
      rw [← hfc] at hname
      exact absurd hname hcn
  · rw [if_neg hany] at hcol
    exfalso
    exact hany (List.any_eq_true.mpr ⟨col, hcol, by simpa using hname⟩)

/-! ### Lemmas about the merge statement -/

/-- Every query `merge_data` builds ends at the closing parenthesis of its
CTE: no main statement follows it. -/
theorem mainStatementAfter_buildMergeQuery (t0 : String) (rest : List String)
    (pk : String) :
    mainStatementAfter (buildMergeQuery t0 rest pk) = "" := by
  unfold buildMergeQuery mainStatementAfter
  rw [String.data_append]
  show ((((_ : List Char) ++ [')']).reverse.takeWhile (fun c => c ≠ ')')).reverse).asString = ""
  rw [List.reverse_append]
  simp only [List.reverse_cons, List.reverse_nil, List.nil_append, List.singleton_append,
    List.takeWhile]
  rfl

/-- Executing a query `merge_data` builds always reports the DuckDB parser
error and leaves the store unchanged. -/
theorem execMergeStatement_built (st : Store) (t0 : String) (rest : List String)
    (pk : String) :
    execMergeStatement st (buildMergeQuery t0 rest pk) = (st, .error parserErrorMsg) := by
  unfold execMergeStatement
  rw [if_pos (mainStatementAfter_buildMergeQuery t0 rest pk)]

/-- The merge step never succeeds for a configuration with at least one
source: either a source fails to load, or the built merge statement is
rejected by the parser. -/
theorem mergeBody_not_ok (cfg : Config) (s : RunState) (hne : cfg.sources ≠ []) :
    (mergeBody cfg s).2 ≠ .ok () := by
  unfold mergeBody
  cases hp : processAll cfg.sources s with
  | mk s1 r =>
    cases r with
    | error e => simp
    | ok u =>
      cases u
      cases hs : cfg.sources with
      | nil => exact absurd hs hne
      | cons src srcs =>
        simp only [hs, List.map_cons]
        rw [execMergeStatement_built]
        simp

/-! ### Lemmas about cleanup and the driver -/

/-- Whatever branch cleanup takes, the files surviving it are exactly the
original files minus the DuckDB file and minus the `*.csv` files directly
inside the working directory. -/
theorem cleanupFS_files (cfg : Config) (s : RunState) :
    (cleanupFS cfg s).1.files
      = (s.files.filter (fun p => p ≠ dbPath cfg)).filter (fun p => ¬ isTempCsv cfg p) := by
  unfold cleanupFS
  dsimp only
  split
  · split
    · rfl
    · rfl
  · rfl

/-- Cleanup always removes the staging database file and every `*.csv` inside
the working directory. -/
theorem cleanupFS_removes (cfg : Config) (s : RunState) :
    dbPath cfg ∉ (cleanupFS cfg s).1.files
      ∧ ∀ p ∈ (cleanupFS cfg s).1.files, isTempCsv cfg p = false := by
  rw [cleanupFS_files]
  constructor
  · intro h
    have := (List.mem_filter.mp (List.mem_filter.mp h).1).2
    simp at this
  · intro p hp
    have := (List.mem_filter.mp hp).2
    simpa using this

/-- Cleanup raises (and the directory survives) exactly when a file that is
neither the database file nor a temp-directory `*.csv` remains inside the
still-existing working directory. -/
theorem cleanupFS_error_iff (cfg : Config) (s : RunState) :
    (cleanupFS cfg s).2 = some "OSError: [Errno 39] Directory not empty"
      ↔ s.tempDirExists = true
        ∧ ((s.files.filter (fun p => p ≠ dbPath cfg)).filter
            (fun p => ¬ isTempCsv cfg p)).any (fun p => inTemp cfg p) = true := by
  unfold cleanupFS
  dsimp only
  split
  · split
    · next h1 h2 =>
        constructor
        · intro _; exact ⟨h1, h2⟩
        · intro _; rfl
    · next h1 h2 =>
        constructor
        · intro hx; simp at hx
        · intro hx; exact absurd hx.2 h2
  · next h1 =>
      constructor
      · intro hx; simp at hx
      · intro hx; exact absurd hx.1 h1

/-- With cleanup enabled, `merge_data` ends with the state cleanup produced;
if cleanup raised, its error replaces the body's outcome. -/
theorem mergeData_cleanup_raised (cfg : Config) (s0 : RunState)
    (hc : cfg.cleanupTempFiles = true) (ce : String)
    (h : (cleanupFS cfg (mergeBody cfg s0).1).2 = some ce) :
    mergeData cfg s0 = ((cleanupFS cfg (mergeBody cfg s0).1).1, .error ce) := by
  unfold mergeData
  rw [if_pos hc]
  cases hcl : cleanupFS cfg (mergeBody cfg s0).1 with
  | mk s2 oce =>
    rw [hcl] at h
    cases oce with
    | some ce2 =>
      have : ce2 = ce := by simpa using h
      subst this
      rfl
    | none => simp at h

/-- With cleanup enabled and cleanup succeeding, `merge_data` reports the
body's own outcome, over the cleaned state. -/
theorem mergeData_cleanup_ok (cfg : Config) (s0 : RunState)
    (hc : cfg.cleanupTempFiles = true)
    (h : (cleanupFS cfg (mergeBody cfg s0).1).2 = none) :
    mergeData cfg s0 = ((cleanupFS cfg (mergeBody cfg s0).1).1, (mergeBody cfg s0).2) := by
  unfold mergeData
  rw [if_pos hc]
  cases hcl : cleanupFS cfg (mergeBody cfg s0).1 with
  | mk s2 oce =>
    rw [hcl] at h
    cases oce with
    | some ce2 => simp at h
    | none => rfl

/-- A configuration with any of the three required settings missing fails
validation with the ValueError. -/
theorem validateConfig_missing (keys : List String)
    (h : "output_filename" ∉ keys ∨ "download_directory" ∉ keys
      ∨ "primary_join_key" ∉ keys) :
    validateConfig keys = .error configErrorMsg := by
  unfold validateConfig
  rw [if_neg]
  intro hall
  rcases h with h | h | h
  · exact h (by simpa using List.all_eq_true.mp hall "output_filename" (by simp [requiredSettings]))
  · exact h (by simpa using List.all_eq_true.mp hall "download_directory" (by simp [requiredSettings]))
  · exact h (by simpa using List.all_eq_true.mp hall "primary_join_key" (by simp [requiredSettings]))

/-! ### Concrete fixtures used by the claim theorems -/

/-- A remote dataset of 240 records, served in pages. -/
def ds240 : List Record :=
  (List.range 240).map (fun i => [("report_id", Value.vInt (Int.ofNat i))])

/-- Anchor rows with keys A, B, C. -/
def generalABC : List Record :=
  [[("report_id", Value.vStr "A")], [("report_id", Value.vStr "B")],
   [("report_id", Value.vStr "C")]]

/-- A second source containing only key B. -/
def findingsOnlyB : List Record :=
  [[("report_id", Value.vStr "B"), ("finding_text", Value.vStr "f1")]]

/-- Configuration for the left-join scenario of C1 (cleanup disabled to leave
the final store observable). -/
def cfgLeftJoin : Config :=
  ⟨"merged.csv.gz", "downloads", "report_id", false,
    [⟨"general", generalABC, 10, 0⟩, ⟨"findings", findingsOnlyB, 10, 0⟩]⟩

/-- Configuration whose anchor relation lacks the configured join key. -/
def cfgNoKeyAnchor : Config :=
  ⟨"merged.csv.gz", "downloads", "report_id", false,
    [⟨"general", [[("audit_id", Value.vStr "A")]], 10, 0⟩]⟩

/-- Configuration whose anchor relation carries the configured join key. -/
def cfgKeyAnchor : Config :=
  ⟨"merged.csv.gz", "downloads", "report_id", false,
    [⟨"general", [[("report_id", Value.vStr "A")]], 10, 0⟩]⟩

/-- A non-anchor source in which key A occurs twice. -/
def dupRows : List Record :=
  [[("report_id", Value.vStr "A"), ("v", Value.vInt 1)],
   [("report_id", Value.vStr "A"), ("v", Value.vInt 2)]]

/-- Configuration for the fan-out scenario of C6. -/
def cfgFanOut : Config :=
  ⟨"merged.csv.gz", "downloads", "report_id", false,
    [⟨"general", [[("report_id", Value.vStr "A")]], 10, 0⟩, ⟨"dup", dupRows, 10, 0⟩]⟩

/-- A source whose records carry the join key under the name "id", as an
integer. -/
def srcNumericId : SourceCfg := ⟨"s", [[("id", Value.vInt 5)]], 10, 0⟩

/-- Configuration whose join key is "id" rather than "report_id". -/
def cfgNumericId : Config := ⟨"out.csv.gz", "downloads", "id", false, [srcNumericId]⟩

/-- Configuration with cleanup enabled whose working directory holds a stray
non-csv file, so cleanup's `rmdir` fails. -/
def cfgMasking : Config :=
  ⟨"out.csv.gz", "tmp", "report_id", true,
    [⟨"general", [[("report_id", Value.vStr "A")]], 10, 0⟩]⟩

set_option maxRecDepth 10000

/-! ### Claim theorems -/

/-- C1 (code bug): the merge step never produces a Merged Relation at all.
The statement `merge_data` builds is a `CREATE TABLE ... AS WITH
incremental_join AS (SELECT ... LEFT JOIN ... USING ...)` whose CTE is not
followed by any main SELECT, so DuckDB rejects it with a parser error.  On
the claim's own scenario (anchor keys A, B, C; second source with only key B,
both staged: 3 rows and 1 row respectively), the run fails with the parser
error and no `merged_data` relation exists, instead of a 3-row left-joined
relation. -/
theorem C1_merge_query_has_no_main_select :
    buildMergeQuery "general" ["findings"] "report_id"
        = "CREATE TABLE merged_data AS\nWITH incremental_join AS (\n    SELECT * FROM general\nLEFT JOIN findings \nUSING (report_id)\n)"
    ∧ ((runPipeline requiredSettings cfgLeftJoin []).1.store.lookup "general").map rowCount
        = some 3
    ∧ ((runPipeline requiredSettings cfgLeftJoin []).1.store.lookup "findings").map rowCount
        = some 1
    ∧ (runPipeline requiredSettings cfgLeftJoin []).2 = Except.error parserErrorMsg
    ∧ (runPipeline requiredSettings cfgLeftJoin []).1.store.lookup "merged_data" = none :=
  ⟨rfl, rfl, rfl, rfl, rfl⟩

/-- C2 (counterexample): the reader does not normalize the configured join
key; it normalizes the literal column name "report_id".  With the join key
configured as "id", the reader yields the batch with the "id" column still
holding the integer 5, not its textual rendering. -/
theorem C2_counterexample_configured_key_not_normalized :
    cfgNumericId.primaryJoinKey = "id"
    ∧ cfgNumericId.sources = [srcNumericId]
    ∧ (fetchRun srcNumericId.dataset srcNumericId.sz srcNumericId.start).batches
        = [⟨[("id", [Value.vInt 5])]⟩]
    ∧ isTextual (Value.vInt 5) = false :=
  ⟨rfl, rfl, rfl, rfl⟩

/-- C2 (amended): before a batch leaves the reader, every cell of the column
literally named "report_id" — the default join key, but not the configured
join key in general — is coerced to a textual value, and normalization
satisfies the round-trip property normalize(x) = normalize(str(x)). -/
theorem C2_report_id_normalized_in_reader (df : DataFrame) :
    (∀ col ∈ (normalizeDF df).cols, col.1 = "report_id" →
        ∀ v ∈ col.2, isTextual v = true)
    ∧ (∀ v : Value, normalizeValue (Value.vStr v.toText) = normalizeValue v) :=
  ⟨normalizeDF_textual df, fun v => normalizeValue_roundTrip v⟩

/-- Witness for C2's amended theorem at a concrete one-row batch. -/
theorem C2_report_id_normalized_witness : isTextual (Value.vStr "7") = true :=
  (C2_report_id_normalized_in_reader ⟨[("report_id", [Value.vInt 7])]⟩).1
    ("report_id", [Value.vStr "7"]) (by decide) rfl (Value.vStr "7") (by decide)

/-- C3 (code bug): there is no Configuration Error tied to a join key missing
from the anchor schema.  The merge step fails with the same SQL parser error
whether the anchor relation lacks the configured join key or carries it,
because the built statement cannot be parsed at all; that error is not the
configuration ValueError. -/
theorem C3_no_configuration_error_for_missing_key :
    (runPipeline requiredSettings cfgNoKeyAnchor []).2 = Except.error parserErrorMsg
    ∧ (runPipeline requiredSettings cfgKeyAnchor []).2 = Except.error parserErrorMsg
    ∧ parserErrorMsg ≠ configErrorMsg :=
  ⟨rfl, rfl, by decide⟩

/-- C4 (confirmed): the reader's offset advances by the page size per yielded
batch; every page before the last request was full (fetching continues
exactly while pages are full) and the page answering the last request was
empty or short; and on a 240-record source with page size 100 the reader
yields batches of sizes 100, 100, 40, issues no fetch after the short batch
(3 fetches in total), and the staging relation then holds 240 rows. -/
theorem C4_pagination (dataset : List Record) (sz start : Nat) :
    ((fetchRun dataset sz start).finalFrom
        = start + (fetchRun dataset sz start).batches.length * sz)
    ∧ (∀ i, i + 1 < (fetchRun dataset sz start).fetches →
        ((dataset.drop (start + i * sz)).take sz).length = sz)
    ∧ (0 < sz →
        ((dataset.drop (start + ((fetchRun dataset sz start).fetches - 1) * sz)).take sz).length < sz)
    ∧ ((fetchRun ds240 100 0).batches.map rowCount = [100, 100, 40]
        ∧ (fetchRun ds240 100 0).fetches = 3
        ∧ ((loadSource [] "general" (fetchRun ds240 100 0).batches).1.lookup "general").map rowCount
            = some 240) := by
  refine ⟨?_, ?_, ?_, by decide, by decide, by decide⟩
  · exact fetchRunAux_finalFrom dataset sz (dataset.length + 1) start
      (fetchRun_fuel dataset start)
  · exact fun i hi => fetchRunAux_full_pages dataset sz (dataset.length + 1) start i
      (fetchRun_fuel dataset start) hi
  · exact fun hsz => fetchRunAux_last_short dataset sz hsz (dataset.length + 1) start
      (fetchRun_fuel dataset start)

/-- Witness for C4 at the 240-record source: page 0 is full, and the page
behind the final (third) request is short. -/
theorem C4_pagination_witness :
    ((ds240.drop (0 + 0 * 100)).take 100).length = 100
    ∧ ((ds240.drop (0 + ((fetchRun ds240 100 0).fetches - 1) * 100)).take 100).length < 100 :=
  ⟨(C4_pagination ds240 100 0).2.1 0 (by decide),
   (C4_pagination ds240 100 0).2.2.1 (by decide)⟩

/-- C5 (confirmed): after a fully successful load, the relation stored under
the source's name has row count equal to the sum of the ingested batch row
counts; each successful append grows the row count by exactly the chunk's row
count (monotone growth); and the stored relation is independent of whatever
the store previously held under that name (the relation is re-created, not
appended to). -/
theorem C5_staging_row_count (st : Store) (name : String) (first : DataFrame)
    (rest : List DataFrame) :
    (∀ t, appendAll name first rest = (t, Except.ok ()) →
        (loadSource st name (first :: rest)).1.lookup name = some t
        ∧ rowCount t = rowCount first + (rest.map rowCount).sum)
    ∧ (∀ t c t', insertInto name t c = Except.ok t' → rowCount t' = rowCount t + rowCount c)
    ∧ (∀ st2 : Store, (loadSource st name (first :: rest)).1.lookup name
        = (loadSource st2 name (first :: rest)).1.lookup name) := by
  refine ⟨?_, ?_, ?_⟩
  · intro t h
    constructor
    · rw [loadSource_lookup st name first rest, h]
    · exact appendAll_rowCount name rest first t h
  · exact fun t c t' h => insertInto_rowCount name t c t' h
  · intro st2
    rw [loadSource_lookup st name first rest, loadSource_lookup st2 name first rest]

/-- Witness for C5 at a concrete two-batch load over a non-empty prior
store. -/
theorem C5_staging_row_count_witness :
    (loadSource [("general", ⟨[("zz", [Value.vInt 9])]⟩)] "general"
        [⟨[("a", [Value.vInt 1])]⟩, ⟨[("a", [Value.vInt 2])]⟩]).1.lookup "general"
      = some ⟨[("a", [Value.vInt 1, Value.vInt 2])]⟩
    ∧ rowCount ⟨[("a", [Value.vInt 1, Value.vInt 2])]⟩
      = rowCount (⟨[("a", [Value.vInt 1])]⟩ : DataFrame)
        + (([⟨[("a", [Value.vInt 2])]⟩] : List DataFrame).map rowCount).sum :=
  (C5_staging_row_count [("general", ⟨[("zz", [Value.vInt 9])]⟩)] "general"
      ⟨[("a", [Value.vInt 1])]⟩ [⟨[("a", [Value.vInt 2])]⟩]).1
    ⟨[("a", [Value.vInt 1, Value.vInt 2])]⟩ rfl

/-- C6 (code bug): join fan-out never materializes because the merge never
produces output.  With anchor key A staged once and a non-anchor source
staging key A twice (2 rows staged), the run fails with the parser error and
no `merged_data` relation exists, so no 2-row fan-out for A is ever
observable. -/
theorem C6_fanout_never_materializes :
    ((runPipeline requiredSettings cfgFanOut []).1.store.lookup "dup").map rowCount = some 2
    ∧ (runPipeline requiredSettings cfgFanOut []).2 = Except.error parserErrorMsg
    ∧ (runPipeline requiredSettings cfgFanOut []).1.store.lookup "merged_data" = none :=
  ⟨rfl, rfl, rfl⟩

/-- C7 (confirmed): a configuration missing the output path, the working
directory or the join key fails initialization with the configuration
ValueError, and no HTTP request has been issued at that point. -/
theorem C7_missing_setting_no_network (keys : List String) (cfg : Config)
    (files0 : List String)
    (h : "output_filename" ∉ keys ∨ "download_directory" ∉ keys
      ∨ "primary_join_key" ∉ keys) :
    (runPipeline keys cfg files0).2 = Except.error configErrorMsg
    ∧ (runPipeline keys cfg files0).1.http = 0 := by
  have hv := validateConfig_missing keys h
  unfold runPipeline
  rw [hv]
  exact ⟨rfl, rfl⟩

/-- Witness for C7 with the output path missing from the settings. -/
theorem C7_missing_setting_witness :
    (runPipeline ["download_directory", "primary_join_key"] cfgLeftJoin []).2
        = Except.error configErrorMsg
    ∧ (runPipeline ["download_directory", "primary_join_key"] cfgLeftJoin []).1.http = 0 :=
  C7_missing_setting_no_network ["download_directory", "primary_join_key"] cfgLeftJoin []
    (Or.inl (by decide))

/-- C8 (counterexample): a later batch with a field outside the frozen schema
does not make loading fail.  With frozen schema (a, b) and a same-arity chunk
with fields (a, c), the positional insert succeeds: field "c" is absent from
the schema, yet no Append Error is raised — c's values land under column
"b". -/
theorem C8_counterexample_silent_misalignment :
    "c" ∉ ([("a", [Value.vInt 1]), ("b", [Value.vInt 2])]).map Prod.fst
    ∧ "c" ∈ ([("a", [Value.vInt 3]), ("c", [Value.vInt 4])]).map Prod.fst
    ∧ insertInto "test_source"
        ⟨[("a", [Value.vInt 1]), ("b", [Value.vInt 2])]⟩
        ⟨[("a", [Value.vInt 3]), ("c", [Value.vInt 4])]⟩
      = Except.ok ⟨[("a", [Value.vInt 1, Value.vInt 3]), ("b", [Value.vInt 2, Value.vInt 4])]⟩ :=
  ⟨by decide, by decide, rfl⟩

/-- C8 (amended): a later batch whose column count differs from the frozen
schema's fails the append with a binder error naming the source table and
the two column counts (not the drifted field names); a successful append
never changes the schema's column names (no silent widening); a same-arity
batch with drifted field names is inserted positionally without error. -/
theorem C8_amended_append_behaviour (name : String) (t c : DataFrame) :
    (t.cols.length ≠ c.cols.length →
      insertInto name t c = Except.error ("Binder Error: table " ++ name ++ " has "
        ++ toString t.cols.length ++ " columns but " ++ toString c.cols.length
        ++ " values were supplied"))
    ∧ (∀ t', insertInto name t c = Except.ok t' →
        t'.cols.map Prod.fst = t.cols.map Prod.fst ∧ t.cols.length = c.cols.length) :=
  ⟨fun h => insertInto_count_mismatch name t c h,
   fun t' h => insertInto_schema name t c t' h⟩

/-- Witness for C8's amended theorem at a concrete count mismatch. -/
theorem C8_amended_witness :
    insertInto "general" ⟨[("a", [])]⟩ ⟨[]⟩
      = Except.error "Binder Error: table general has 1 columns but 0 values were supplied" :=
  (C8_amended_append_behaviour "general" ⟨[("a", [])]⟩ ⟨[]⟩).1 (by decide)

/-- C9 (counterexample): a failure inside cleanup replaces the original
error.  With a stray non-csv file in the working directory, the merge body
fails with the parser error, but the run reports cleanup's OSError from
`rmdir` instead: the original error is masked. -/
theorem C9_counterexample_cleanup_masks_error :
    (mergeBody cfgMasking ⟨[], ["tmp/notes.txt", "tmp/temp.duckdb"], true, 0⟩).2
        = Except.error parserErrorMsg
    ∧ (runPipeline requiredSettings cfgMasking ["tmp/notes.txt"]).2
        = Except.error "OSError: [Errno 39] Directory not empty"
    ∧ parserErrorMsg ≠ "OSError: [Errno 39] Directory not empty" :=
  ⟨rfl, rfl, by decide⟩

/-- C9 (amended): with cleanup enabled, cleanup runs on every exit path of
the merge step: the final state never contains the staging database file or
any `*.csv` inside the working directory; when cleanup itself succeeds the
body's outcome (success or its own error) is reported unchanged, and when
cleanup raises, its error is reported in place of the original outcome. -/
theorem C9_amended_cleanup_every_path (cfg : Config) (s0 : RunState)
    (hc : cfg.cleanupTempFiles = true) :
    dbPath cfg ∉ (mergeData cfg s0).1.files
    ∧ (∀ p ∈ (mergeData cfg s0).1.files, isTempCsv cfg p = false)
    ∧ ((cleanupFS cfg (mergeBody cfg s0).1).2 = none →
        (mergeData cfg s0).2 = (mergeBody cfg s0).2)
    ∧ (∀ ce, (cleanupFS cfg (mergeBody cfg s0).1).2 = some ce →
        (mergeData cfg s0).2 = Except.error ce) := by
  have hstate : (mergeData cfg s0).1 = (cleanupFS cfg (mergeBody cfg s0).1).1 := by
    cases ho : (cleanupFS cfg (mergeBody cfg s0).1).2 with
    | none => rw [mergeData_cleanup_ok cfg s0 hc ho]
    | some ce => rw [mergeData_cleanup_raised cfg s0 hc ce ho]
  refine ⟨?_, ?_, ?_, ?_⟩
  · rw [hstate]
    exact (cleanupFS_removes cfg (mergeBody cfg s0).1).1
  · intro p hp
    rw [hstate] at hp
    exact (cleanupFS_removes cfg (mergeBody cfg s0).1).2 p hp
  · intro h
    rw [mergeData_cleanup_ok cfg s0 hc h]
  · intro ce h
    rw [mergeData_cleanup_raised cfg s0 hc ce h]

/-- Witness for C9's amended theorem on the concrete masking run. -/
theorem C9_amended_witness :
    (mergeData cfgMasking ⟨[], ["tmp/notes.txt", "tmp/temp.duckdb"], true, 0⟩).2
      = Except.error "OSError: [Errno 39] Directory not empty" :=
  (C9_amended_cleanup_every_path cfgMasking ⟨[], ["tmp/notes.txt", "tmp/temp.duckdb"], true, 0⟩
      rfl).2.2.2 "OSError: [Errno 39] Directory not empty" rfl

/-- C10 (confirmed): when the very first fetch of a source returns zero
records, the reader yields no batch and the loader leaves the store exactly
as it was — no staging relation is created for that source, not even an
empty one — and the later merge step never succeeds (it fails rather than
treating the source as empty). -/
theorem C10_empty_first_fetch_no_relation (st : Store) (name : String)
    (dataset : List Record) (sz start : Nat) (cfg : Config) (s : RunState)
    (hempty : dataset.drop start = []) (hne : cfg.sources ≠ []) :
    (fetchRun dataset sz start).batches = []
    ∧ loadSource st name (fetchRun dataset sz start).batches = (st, Except.ok ())
    ∧ (mergeBody cfg s).2 ≠ Except.ok () := by
  have hf := fetchRun_of_drop_nil dataset sz start hempty
  exact ⟨by rw [hf], by rw [hf]; rfl, mergeBody_not_ok cfg s hne⟩

/-- Witness for C10 at a source whose configured offset is past its data. -/
theorem C10_empty_first_fetch_witness :
    (fetchRun ([[("report_id", Value.vStr "A")]] : List Record) 10 5).batches = []
    ∧ loadSource [] "findings"
        (fetchRun ([[("report_id", Value.vStr "A")]] : List Record) 10 5).batches
      = ([], Except.ok ()) :=
  ⟨(C10_empty_first_fetch_no_relation [] "findings" [[("report_id", Value.vStr "A")]] 10 5
      cfgLeftJoin ⟨[], [], true, 0⟩ (by decide) (by decide)).1,
   (C10_empty_first_fetch_no_relation [] "findings" [[("report_id", Value.vStr "A")]] 10 5
      cfgLeftJoin ⟨[], [], true, 0⟩ (by decide) (by decide)).2.1⟩

end FacPipeline
